import Mathlib

/-!
# Verification of the data-analyst backend (`src/backend/main.py`)

Shallow embedding of the stateful core of the backend: the chunked upload
reassembly protocol (`handle_analysis_start`, `handle_file_chunk`, the
file-saving prologue of `handle_analysis_ready`), the generate–execute–repair
loop (`execute_analysis_script`, `iterate_analysis_script`, the retry loop of
`handle_analysis_ready`), fenced-code extraction
(`extract_code_from_response`), the structure sniffer
(`analyze_file_structure`), and the per-connection message dispatch
(`analyze_data`).

External effects are modelled explicitly:
* a child-process run is an `ExecBehavior` (its exit status and whether it
  writes the result artifact `output/analysis_results.json`);
* the filesystem state relevant to the loop is one boolean — whether the
  artifact path exists (the only thing the loop inspects; nothing in the
  source ever deletes it);
* each call to the code-synthesis service is summarised by the result of
  `extract_code_from_response` on its response (`Option`: an extracted script
  or no usable code block).

Python exceptions become an explicit error type; handlers return the error
that would propagate to `analyze_data`.
-/

/-- The `Exception`s raised by the Python handlers (identified by message). -/
inductive PyError where
  /-- Message "Received chunk for unknown file: ..." (raised by `handle_file_chunk`). -/
  | unknownFile (name : String)
  /-- The IndexError raised by the chunk-slot assignment in `handle_file_chunk`. -/
  | indexError
  /-- Message "Incomplete file received: ..." (raised by `handle_analysis_ready`). -/
  | incompleteFile (name : String)
  /-- The TypeError raised by the string join over a list still holding a None slot. -/
  | typeErrorJoinNone
  /-- Message "No python code block found in the response" (`extract_code_from_response`). -/
  | noCodeBlock
  /-- Message "Script execution failed: ..." (raised by `execute_analysis_script`). -/
  | execFailed
  /-- Message "Failed to execute analysis script after maximum retries". -/
  | maxRetries
deriving DecidableEq

/-- Per-file transfer state: the value of `file_chunks[file_name]`
(fields chunks, total_chunks, received_chunks). -/
structure FileInfo where
  chunks : List (Option String)
  total_chunks : Option Nat
  received_chunks : Nat
deriving DecidableEq

/-- The per-session file_chunks dict, in insertion order. -/
abbrev FileChunks := List (String × FileInfo)

/-- Dict lookup of the entry for `name`. -/
def lookupFile : FileChunks → String → Option FileInfo
  | [], _ => none
  | (n, i) :: rest, name => if n = name then some i else lookupFile rest name

/-- In-place mutation of the entry for `name` (Python dict aliasing). -/
def updateFile : FileChunks → String → FileInfo → FileChunks
  | [], _, _ => []
  | (n, i) :: rest, name, info =>
      if n = name then (n, info) :: rest else (n, i) :: updateFile rest name info

/-- Dict assignment of `info` under `name`: overwrite in place, or append a new key
(Python dicts keep insertion order). -/
def setFile (fc : FileChunks) (name : String) (info : FileInfo) : FileChunks :=
  if (lookupFile fc name).isSome then updateFile fc name info else fc ++ [(name, info)]

/-- The fresh per-file record created by `handle_analysis_start`. -/
def freshFile : FileInfo := ⟨[], none, 0⟩

/-- Model of `handle_analysis_start`: registers every declared file with an empty
record. Pre-existing entries for other names are left untouched. -/
def handle_analysis_start (file_names : List String) (fc : FileChunks) : FileChunks :=
  file_names.foldl (fun acc n => setFile acc n freshFile) fc

/-- One `file_chunk` websocket message. -/
structure ChunkMsg where
  fileName : String
  chunkIndex : Nat
  totalChunks : Nat
  content : String
deriving DecidableEq

/-- Model of `handle_file_chunk`: store `content` at `chunkIndex`; the first chunk for
a file fixes `total_chunks` and allocates `[None] * total_chunks`;
`received_chunks` is incremented unconditionally. Returns the updated dict
and the error raised, if any. An out-of-range index raises `IndexError`
after the allocation mutation has already happened. -/
def handle_file_chunk (m : ChunkMsg) (fc : FileChunks) : FileChunks × Option PyError :=
  match lookupFile fc m.fileName with
  | none => (fc, some (.unknownFile m.fileName))
  | some info =>
    let info1 := match info.total_chunks with
      | none => { info with total_chunks := some m.totalChunks,
                            chunks := List.replicate m.totalChunks none }
      | some _ => info
    if m.chunkIndex < info1.chunks.length then
      let info2 := { info1 with
        chunks := info1.chunks.set m.chunkIndex (some m.content),
        received_chunks := info1.received_chunks + 1 }
      (updateFile fc m.fileName info2, none)
    else
      (updateFile fc m.fileName info1, some .indexError)

/-- The string join of the chunk slots: concatenation in slot order; a None
slot raises TypeError. -/
def joinChunks : List (Option String) → Except PyError String
  | [] => .ok ""
  | none :: _ => .error .typeErrorJoinNone
  | some s :: rest => (joinChunks rest).map (fun r => s ++ r)

/-- The file-saving prologue of `handle_analysis_ready`: for each file, in
dict order, raise "Incomplete file received" when
`received_chunks != total_chunks` (an unset `total_chunks` also differs from
the integer count), else join the slots. Returns the reassembled
`(name, content)` pairs written to the input directory. -/
def finalize_files : FileChunks → Except PyError (List (String × String))
  | [] => .ok []
  | (name, info) :: rest =>
    match info.total_chunks with
    | none => .error (.incompleteFile name)
    | some t =>
      if info.received_chunks ≠ t then .error (.incompleteFile name)
      else
        match joinChunks info.chunks with
        | .error e => .error e
        | .ok content => (finalize_files rest).map (fun l => (name, content) :: l)

/-- Feed a sequence of `file_chunk` messages through `handle_file_chunk`;
`analyze_data` reports each raised error to the client and keeps serving the
connection, so processing continues after an error. Returns the final dict
and the errors surfaced along the way. -/
def processChunkMsgs (msgs : List ChunkMsg) (fc : FileChunks) : FileChunks × List PyError :=
  match msgs with
  | [] => (fc, [])
  | m :: rest =>
    let r := handle_file_chunk m fc
    let r2 := processChunkMsgs rest r.1
    (r2.1, r.2.toList ++ r2.2)

/-! ## The generate–execute–repair loop -/

/-- The constant MAX_RETRIES = 5 (`main.py`, line 23). -/
def MAX_RETRIES : Nat := 5

/-- Observable behaviour of one child-process run of the generated script:
its exit status and whether it (newly) writes `ANALYSIS_RESULTS_PATH`. -/
structure ExecBehavior where
  exitsZero : Bool
  writesArtifact : Bool
deriving DecidableEq

/-- Model of `execute_analysis_script`: runs the script; a non-zero exit raises
"Script execution failed". The artifact flag records whether
`ANALYSIS_RESULTS_PATH` exists afterwards — nothing ever deletes it, so it
only accumulates. -/
def execute_analysis_script (b : ExecBehavior) (artifactExists : Bool) :
    Except PyError Unit × Bool :=
  let artifactAfter := artifactExists || b.writesArtifact
  if b.exitsZero then (.ok (), artifactAfter) else (.error .execFailed, artifactAfter)

/-- Result of `iterate_analysis_script`: the `(new_script, success)` pair it
returns, plus the artifact state and the number of executions it performed. -/
structure IterResult where
  script : String
  success : Bool
  artifact : Bool
  execs : Nat
deriving DecidableEq

/-- Model of `iterate_analysis_script`: the repair-synthesis call is summarised by
`extracted` (the result of `extract_code_from_response` on its response).
When extraction fails, the outer `except` returns the previous script with
`success = False` and no execution happens. Otherwise the new script is
executed; success means the execution did not raise and
`ANALYSIS_RESULTS_PATH` exists. -/
def iterate_analysis_script (extracted : Option String) (b : ExecBehavior)
    (current_script : String) (artifactExists : Bool) : IterResult :=
  match extracted with
  | none => ⟨current_script, false, artifactExists, 0⟩
  | some new_script =>
    match execute_analysis_script b artifactExists with
    | (.ok _, artifactAfter) =>
      if artifactAfter then ⟨new_script, true, artifactAfter, 1⟩
      else ⟨new_script, false, artifactAfter, 1⟩
    | (.error _, artifactAfter) => ⟨new_script, false, artifactAfter, 1⟩

/-- External-call outcomes for a session: the behaviour of the n-th script
execution and the extraction result of the n-th repair-synthesis call. -/
structure RepairEnv where
  execBeh : Nat → ExecBehavior
  repairExtract : Nat → Option String

/-- State of the retry loop in `handle_analysis_ready`: `current_retry` and
`current_script` are the Python locals; `artifact` is whether
`ANALYSIS_RESULTS_PATH` exists; `execs` and `repair_calls` count the script
executions and repair-synthesis calls performed so far. -/
structure LoopState where
  current_retry : Nat
  current_script : String
  artifact : Bool
  execs : Nat
  repair_calls : Nat
deriving DecidableEq

/-- Outcome of the retry loop: `success` as in the Python local; `success =
false` means the loop fell through and `handle_analysis_ready` raises
"Failed to execute analysis script after maximum retries". -/
structure LoopResult where
  success : Bool
  final : LoopState
deriving DecidableEq

/-- One evaluation of the `while` guard plus (when it holds) one body
iteration. -/
inductive StepResult where
  | done (r : LoopResult)
  | next (st : LoopState)
deriving DecidableEq

/-- One round of `while current_retry < MAX_RETRIES and not success:` —
execute the current script; on a zero exit, succeed iff the artifact exists
(otherwise fall through to the next iteration *without* touching
`current_retry`); on a raise, call `iterate_analysis_script` (which executes
its repaired script itself), break on its success, else
`current_retry += 1`. -/
def loopStep (env : RepairEnv) (st : LoopState) : StepResult :=
  if st.current_retry < MAX_RETRIES then
    match execute_analysis_script (env.execBeh st.execs) st.artifact with
    | (.ok _, artifactAfter) =>
      let st1 : LoopState :=
        ⟨st.current_retry, st.current_script, artifactAfter, st.execs + 1, st.repair_calls⟩
      if artifactAfter then .done ⟨true, st1⟩ else .next st1
    | (.error _, artifactAfter) =>
      let r := iterate_analysis_script (env.repairExtract st.repair_calls)
                 (env.execBeh (st.execs + 1)) st.current_script artifactAfter
      let st1 : LoopState :=
        ⟨st.current_retry, r.script, r.artifact, st.execs + 1 + r.execs, st.repair_calls + 1⟩
      if r.success then .done ⟨true, st1⟩
      else .next { st1 with current_retry := st.current_retry + 1 }
  else
    .done ⟨false, st⟩

/-- Run the retry loop. `fuel` bounds the number of guard evaluations; `none`
models the loop still spinning (it can genuinely diverge when every
execution exits 0 without producing the artifact). -/
def runLoop (env : RepairEnv) : Nat → LoopState → Option LoopResult
  | 0, _ => none
  | fuel + 1, st =>
    match loopStep env st with
    | .done r => some r
    | .next st' => runLoop env fuel st'

/-! ## Fenced-code extraction (`extract_code_from_response`) -/

/-- Does `pat` occur as a leading segment of `l`? -/
def matchesAt : List Char → List Char → Bool
  | [], _ => true
  | _ :: _, [] => false
  | p :: ps, c :: cs => p == c && matchesAt ps cs

/-- The text after the first occurrence of `pat`, or `none` when `pat` does
not occur. -/
def afterFirst (pat : List Char) : List Char → Option (List Char)
  | [] => if matchesAt pat [] then some [] else none
  | c :: rest =>
    if matchesAt pat (c :: rest) then some ((c :: rest).drop pat.length)
    else afterFirst pat rest

/-- The text before the first occurrence of `pat`, or `none` when `pat` does
not occur. -/
def upToFirst (pat : List Char) : List Char → Option (List Char)
  | [] => if matchesAt pat [] then some [] else none
  | c :: rest =>
    if matchesAt pat (c :: rest) then some []
    else
      match upToFirst pat rest with
      | some xs => some (c :: xs)
      | none => none

/-- Whitespace stripped by the Python string strip method (the characters
relevant to generated scripts). -/
def isPySpace (c : Char) : Bool := c == ' ' || c == '\n' || c == '\t' || c == '\r'

/-- Python `str.strip()`. -/
def stripChars (l : List Char) : List Char :=
  ((l.dropWhile isPySpace).reverse.dropWhile isPySpace).reverse

/-- The opening fence matched by the regex `f"```{language}\n"` with
`language = "python"`. -/
def pythonFenceOpen : List Char := "```python\n".data

/-- The closing fence. -/
def fenceClose : List Char := "```".data

/-- Model of `extract_code_from_response`: the non-greedy dot-all regex
search for a python fence — the earliest opening fence, then the earliest
closing fence after it; missing either raises "No python code block found
in the response". The match group is stripped of surrounding whitespace. -/
def extract_code_from_response (response : String) : Except PyError String :=
  match afterFirst pythonFenceOpen response.data with
  | none => .error .noCodeBlock
  | some rest =>
    match upToFirst fenceClose rest with
    | none => .error .noCodeBlock
    | some code => .ok (String.mk (stripChars code))

/-- Does the response contain a complete fenced python block? -/
def containsPythonFence (s : String) : Bool :=
  ((afterFirst pythonFenceOpen s.data).bind (upToFirst fenceClose)).isSome

/-! ## `handle_analysis_ready` and the session dispatch -/

/-- How a call to `handle_analysis_ready` ends. -/
inductive ReadyOutcome where
  /-- An exception propagated out to `analyze_data` (which sends
  `{"error": ...}` and does *not* clear `file_chunks`). -/
  | raised (e : PyError)
  /-- The initial-synthesis `except`: `{"error": ...}` is sent and the
  handler returns normally (so `analyze_data` clears `file_chunks`). -/
  | errorSent (e : PyError)
  /-- The loop succeeded and the handler went on to report generation. -/
  | completed (final : LoopState)
  /-- Modelling fuel ran out (the loop was still spinning). -/
  | fuelOut
deriving DecidableEq

/-- Result of `handle_analysis_ready`, with ghost counters: initial
code-synthesis calls made, script executions performed and repair-synthesis
calls made. -/
structure ReadyResult where
  outcome : ReadyOutcome
  synth_calls : Nat
  execs : Nat
  repair_calls : Nat
deriving DecidableEq

/-- Model of `handle_analysis_ready`: reassemble and save every file (raising on an
incomplete one), call the synthesis service (`response` is its streamed
text) and extract the script — on failure send the error and return — then
run the retry loop from `current_retry = 0`; a fall-through raises
"Failed to execute analysis script after maximum retries".
`artifact0` is whether `ANALYSIS_RESULTS_PATH` already exists when the
request starts; the handler never deletes it. -/
def handle_analysis_ready (fc : FileChunks) (response : String) (env : RepairEnv)
    (artifact0 : Bool) (fuel : Nat) : ReadyResult :=
  match finalize_files fc with
  | .error e => ⟨.raised e, 0, 0, 0⟩
  | .ok _files =>
    match extract_code_from_response response with
    | .error e => ⟨.errorSent e, 1, 0, 0⟩
    | .ok code =>
      match runLoop env fuel ⟨0, code, artifact0, 0, 0⟩ with
      | none => ⟨.fuelOut, 1, 0, 0⟩
      | some r =>
        if r.success then ⟨.completed r.final, 1, r.final.execs, r.final.repair_calls⟩
        else ⟨.raised .maxRetries, 1, r.final.execs, r.final.repair_calls⟩

/-- Per-connection state owned by `analyze_data`. -/
structure SessionState where
  file_chunks : FileChunks
  prompt : String
deriving DecidableEq

/-- One inbound websocket message. -/
inductive ClientMsg where
  | analysisStart (fileNames : List String) (prompt : String)
  | fileChunk (m : ChunkMsg)
  | analysisReady

/-- One turn of the `while True` receive loop in `analyze_data`: dispatch on
the message type; an exception from a handler is sent to the client as
`{"error": ...}` and the loop keeps serving. `file_chunks.clear()` runs only
when `handle_analysis_ready` returns without raising. Returns the new
session state and the errors sent to the client. -/
def processMessage (response : String) (env : RepairEnv) (artifact0 : Bool) (fuel : Nat)
    (st : SessionState) (msg : ClientMsg) : SessionState × List PyError :=
  match msg with
  | .analysisStart names p => (⟨handle_analysis_start names st.file_chunks, p⟩, [])
  | .fileChunk m =>
    let r := handle_file_chunk m st.file_chunks
    (⟨r.1, st.prompt⟩, r.2.toList)
  | .analysisReady =>
    let r := handle_analysis_ready st.file_chunks response env artifact0 fuel
    match r.outcome with
    | .raised e => (st, [e])
    | .errorSent e => (⟨[], st.prompt⟩, [e])
    | .completed _ => (⟨[], st.prompt⟩, [])
    | .fuelOut => (st, [])

/-! ## The structure sniffer (`analyze_file_structure`) -/

/-- Python `str.lower()` on one character (ASCII case mapping). -/
def pyLowerChar (c : Char) : Char :=
  if 'A' ≤ c ∧ c ≤ 'Z' then Char.ofNat (c.toNat + 32) else c

/-- Python string split on dots: split on every dot, keeping empty segments. -/
def splitOnDot : List Char → List (List Char)
  | [] => [[]]
  | c :: rest =>
    let r := splitOnDot rest
    if c = '.' then [] :: r
    else
      match r with
      | [] => [[c]]
      | seg :: segs => (c :: seg) :: segs

/-- The file extension: the lowercased file name split on dots, last segment. -/
def fileExt (name : String) : String :=
  String.mk ((splitOnDot (name.data.map pyLowerChar)).getLastD [])

/-- What `pd.read_csv` / `pd.read_excel` yields about a parsed frame: its
column names, `len(df)`, and `df.head(3).to_string()` (opaque text). -/
structure FrameOracle where
  columns : List String
  rowCount : Nat
  headText : String
deriving DecidableEq

/-- A parsed JSON document shape: scalars carry `type(value).__name__`. -/
inductive JVal where
  | obj (fields : List (String × JVal))
  | arr (items : List JVal)
  | prim (tyName : String)

/-- Parse outcomes of the three readers for the file under inspection; an
`error` value is the exception message the reader raises. -/
structure SnifferOracle where
  readCsv : Except String FrameOracle
  readExcel : Except String FrameOracle
  loadJson : Except String JVal

/-- Indentation of n levels, two spaces each. -/
def indentStr : Nat → String
  | 0 => ""
  | n + 1 => "  " ++ indentStr n

/-- Comma-separated join of the column names. -/
def commaJoin : List String → String
  | [] => ""
  | [s] => s
  | s :: rest => s ++ ", " ++ commaJoin rest

/-- Model of `analyze_json_structure` (max_depth 3, current_depth 0): bounded-depth
walk printing the first 5 keys of an object and first 3 items of an array,
with `...` past the truncation point and type names at the leaves. -/
def analyze_json_structure (obj : JVal) (max_depth current_depth : Nat) : String :=
  if _h : max_depth ≤ current_depth then "..."
  else
    match obj with
    | .prim t => t
    | .obj fields =>
      let body := (fields.take 5).foldl (fun acc kv =>
        acc ++ indentStr (current_depth + 1) ++ "\"" ++ kv.1 ++ "\": " ++
        (match kv.2 with
         | .obj f2 => analyze_json_structure (.obj f2) max_depth (current_depth + 1)
         | .arr a2 => analyze_json_structure (.arr a2) max_depth (current_depth + 1)
         | .prim t => t) ++ ",\n") "\x7b\n"
      let body := if 5 < fields.length then body ++ indentStr (current_depth + 1) ++ "...\n"
                  else body
      body ++ indentStr current_depth ++ "\x7d"
    | .arr items =>
      if items.isEmpty then "[]"
      else
        let body := (items.take 3).foldl (fun acc item =>
          acc ++ indentStr (current_depth + 1) ++
          (match item with
           | .obj f2 => analyze_json_structure (.obj f2) max_depth (current_depth + 1)
           | .arr a2 => analyze_json_structure (.arr a2) max_depth (current_depth + 1)
           | .prim t => t) ++ ",\n") "[\n"
        let body := if 3 < items.length then body ++ indentStr (current_depth + 1) ++ "...\n"
                    else body
        body ++ indentStr current_depth ++ "]"
termination_by max_depth - current_depth
decreasing_by all_goals omega

/-- Model of `count_items`. -/
def count_items : JVal → Nat
  | .obj fields => fields.length
  | .arr items => items.length
  | .prim _ => 1

/-- The `metadata` dict returned by `analyze_file_structure`. -/
inductive FileMeta where
  | tabular (rows columns : Nat)
  | json (top_level_items : Nat)
  | unsupported
  | error
deriving DecidableEq

/-- Model of `analyze_file_structure`: dispatch on the file extension; every parse
failure is caught by the enclosing `try`/`except` and degrades to an
`"error"` metadata whose text carries the exception message. The function is
total: no exception escapes it. -/
def analyze_file_structure (file_name : String) (oracle : SnifferOracle) :
    String × FileMeta :=
  let ext := fileExt file_name
  if ext = "csv" ∨ ext = "txt" then
    match oracle.readCsv with
    | .ok df =>
      ("\nFile: " ++ file_name ++ "\nColumns: " ++ commaJoin df.columns ++
         "\nFirst three rows:\n" ++ df.headText ++ "\n",
       .tabular df.rowCount df.columns.length)
    | .error e =>
      ("\nFile: " ++ file_name ++ "\nStructure could not be read: " ++ e ++ "\n", .error)
  else if ext = "xlsx" then
    match oracle.readExcel with
    | .ok df =>
      ("\nFile: " ++ file_name ++ "\nColumns: " ++ commaJoin df.columns ++
         "\nFirst three rows:\n" ++ df.headText ++ "\n",
       .tabular df.rowCount df.columns.length)
    | .error e =>
      ("\nFile: " ++ file_name ++ "\nStructure could not be read: " ++ e ++ "\n", .error)
  else if ext = "json" then
    match oracle.loadJson with
    | .ok data =>
      ("\nFile: " ++ file_name ++ "\nStructure:\n" ++ analyze_json_structure data 3 0 ++ "\n",
       .json (count_items data))
    | .error e =>
      ("\nFile: " ++ file_name ++ "\nStructure could not be read: " ++ e ++ "\n", .error)
  else
    ("\nFile: " ++ file_name ++ "\nUnsupported file type: " ++ ext ++ "\n", .unsupported)

/-! ## Concrete scenario inputs used by witnesses and counterexamples -/

/-- A session whose script deterministically fails (non-zero exit, no
artifact) and whose every repair-synthesis call yields a script. -/
def envAllFail : RepairEnv := ⟨fun _ => ⟨false, false⟩, fun _ => some "fixed"⟩

/-- A session whose script deterministically fails and whose repair-synthesis
calls never yield an extractable script. -/
def envNoRepair : RepairEnv := ⟨fun _ => ⟨false, false⟩, fun _ => none⟩

/-- A synthesis response carrying one fenced python block. -/
def respFence : String := "```python\npass\n```"

/-- A fully transferred single file. -/
def fcOneComplete : FileChunks := [("a.csv", ⟨[some "x"], some 1, 1⟩)]

/-- A session holding one fully transferred file. -/
def stOneComplete : SessionState := ⟨fcOneComplete, "goal"⟩

/-- A declared file with only one of its two chunks received. -/
def fcIncompleteOne : FileChunks := [("b.csv", ⟨[none, none], some 2, 1⟩)]

/-- A corrupted first file (duplicate chunk: count-complete, slot 1 unfilled)
followed by an incomplete second file. -/
def fcDupThenIncomplete : FileChunks :=
  [("a.csv", ⟨[some "x", none], some 2, 2⟩), ("b.csv", ⟨[none, none], some 2, 1⟩)]

/-- A sniffer run where `pd.read_csv` raises "boom". -/
def oracleCsvBoom : SnifferOracle := ⟨.error "boom", .ok ⟨[], 0, ""⟩, .ok (.prim "int")⟩

/-- Spec-side: slot array of a file split into `N` chunks with contents `f`,
after exactly the chunks with indexes in `done` have arrived. -/
def slotsFor (N : Nat) (f : Nat → String) (done : List Nat) : List (Option String) :=
  (List.range N).map (fun j => if j ∈ done then some (f j) else none)

/-- Spec-side: the in-order concatenation of the `N` chunks. -/
def inOrderConcat (N : Nat) (f : Nat → String) : String :=
  ((List.range N).map f).foldr (fun a b => a ++ b) ""

/-- The `file_chunk` messages for chunks of one file arriving in `order`. -/
def chunkMsgsFor (name : String) (N : Nat) (f : Nat → String) (order : List Nat) :
    List ChunkMsg :=
  order.map (fun i => ⟨name, i, N, f i⟩)

/-- The three chunks of the spec scenario of a 9-byte file. -/
def chunkContent3 : Nat → String := fun i => ["abc", "def", "ghi"].getD i ""

/-! ## C1 — executions performed by the repair loop -/

/-- C1 (counterexample): with `MAX_RETRIES = 5`, a deterministically failing
script and every repair yielding a script, the loop terminates exhausted
after **10** script executions — more than the `MAX_RETRIES = 5` the claim
allows, because each repair cycle executes both in the `while` body and
inside `iterate_analysis_script`. -/
theorem c1_counterexample :
    (runLoop envAllFail 6 ⟨0, "s0", false, 0, 0⟩).map
        (fun r => (r.success, r.final.execs, r.final.current_retry))
      = some (false, 10, 5)
    ∧ ¬ (10 ≤ MAX_RETRIES) := ⟨rfl, by decide⟩

/-- C1 (amended): for every session whose generated script deterministically
fails on each execution and whose repair calls each yield a script, the
repair loop performs two script executions per repair cycle — with
`MAX_RETRIES = 5` it terminates in the exhausted state after exactly
`2 * MAX_RETRIES = 10` execution attempts (5 repair cycles), not 5. -/
theorem c1_amended_ten_executions (w : Nat → Bool) (scripts : Nat → String)
    (s0 : String) (a0 : Bool) :
    (runLoop ⟨fun n => ⟨false, w n⟩, fun n => some (scripts n)⟩ (MAX_RETRIES + 1)
        ⟨0, s0, a0, 0, 0⟩).map
        (fun r => (r.success, r.final.execs, r.final.current_retry))
      = some (false, 2 * MAX_RETRIES, MAX_RETRIES) := rfl

/-! ## C2 — success means zero exit AND artifact on disk -/

/-- C2: an execution attempt is classified a success iff the process exits 0
and `ANALYSIS_RESULTS_PATH` exists afterwards. For a zero-exit direct
execution the loop succeeds iff the artifact exists (a zero exit without the
artifact just falls through as a failure); an executed repair script
succeeds iff it exits zero and the artifact exists; a non-zero exit is never
an immediate success (the loop moves to repair). -/
theorem c2_success_iff_exit_zero_and_artifact (retry : Fin MAX_RETRIES) (s ns : String)
    (a w : Bool) (rep : Nat → Option String) (b : ExecBehavior) (e rc : Nat) :
    (loopStep ⟨fun _ => ⟨true, w⟩, rep⟩ ⟨retry.val, s, a, e, rc⟩
        = if a || w then .done ⟨true, ⟨retry.val, s, a || w, e + 1, rc⟩⟩
          else .next ⟨retry.val, s, a || w, e + 1, rc⟩)
    ∧ ((iterate_analysis_script (some ns) b s a).success
        = (b.exitsZero && (a || b.writesArtifact)))
    ∧ (loopStep ⟨fun _ => ⟨false, w⟩, fun _ => none⟩ ⟨retry.val, s, a, e, rc⟩
        = .next ⟨retry.val + 1, s, a || w, e + 1, rc + 1⟩) := by
  refine ⟨?_, ?_, ?_⟩
  · cases a <;> cases w <;>
      simp [loopStep, execute_analysis_script, retry.isLt]
  · rcases b with ⟨z, wa⟩
    cases z <;> cases a <;> cases wa <;> rfl
  · cases a <;> cases w <;>
      simp [loopStep, execute_analysis_script, iterate_analysis_script, retry.isLt]

/-! ## C4 — the retry counter on failed repair synthesis -/

/-- C4 (counterexample): a failed execution whose repair-synthesis call
yields no extractable script still advances `current_retry` from 0 to 1 —
the claim says it should not advance. -/
theorem c4_counterexample :
    envNoRepair.repairExtract 0 = none
    ∧ loopStep envNoRepair ⟨0, "s0", false, 0, 0⟩ = .next ⟨1, "s0", false, 1, 1⟩ :=
  ⟨rfl, rfl⟩

/-- C4 (amended): after a failed execution, `current_retry` is incremented
whether or not the repair-synthesis call produced a usable script; when
extraction fails only the previous script is retained (and no repair
execution happens), but the retry slot is still consumed. -/
theorem c4_amended_retry_always_increments (retry : Fin MAX_RETRIES) (s ns : String)
    (a w : Bool) (e rc : Nat) :
    (loopStep ⟨fun _ => ⟨false, w⟩, fun _ => none⟩ ⟨retry.val, s, a, e, rc⟩
        = .next ⟨retry.val + 1, s, a || w, e + 1, rc + 1⟩)
    ∧ (loopStep ⟨fun _ => ⟨false, w⟩, fun _ => some ns⟩ ⟨retry.val, s, a, e, rc⟩
        = .next ⟨retry.val + 1, ns, a || w, e + 2, rc + 1⟩) := by
  constructor <;>
    cases a <;> cases w <;>
      simp [loopStep, execute_analysis_script, iterate_analysis_script, retry.isLt]

/-! ## C10 — a stale artifact from an earlier request -/

/-- C10: the success check only tests the fixed artifact path, which is never
deleted at the start of a request; with the artifact left over from an
earlier request, any zero-exit execution is classified a success even though
the script wrote nothing (first conjunct); the same execution without the
stale artifact is a failure (second conjunct); end to end, a request over a
never-writing zero-exit script completes successfully on the first attempt
purely because of the stale artifact (third conjunct). -/
theorem c10_stale_artifact_yields_success (s : String) (rep : Nat → Option String)
    (retry : Fin MAX_RETRIES) (e rc : Nat) :
    (loopStep ⟨fun _ => ⟨true, false⟩, rep⟩ ⟨retry.val, s, true, e, rc⟩
        = .done ⟨true, ⟨retry.val, s, true, e + 1, rc⟩⟩)
    ∧ (loopStep ⟨fun _ => ⟨true, false⟩, rep⟩ ⟨retry.val, s, false, e, rc⟩
        = .next ⟨retry.val, s, false, e + 1, rc⟩)
    ∧ (handle_analysis_ready fcOneComplete respFence ⟨fun _ => ⟨true, false⟩, fun _ => none⟩
          true 1
        = ⟨.completed ⟨0, "pass", true, 1, 0⟩, 1, 1, 0⟩) := by
  refine ⟨?_, ?_, rfl⟩ <;>
    simp [loopStep, execute_analysis_script, retry.isLt]

/-! ## C5 — is per-request transfer state cleared after an error? -/

/-- C5 (counterexample): a retry-budget-exhaustion error is surfaced to the
client, yet the per-file chunk map is *not* cleared — `file_chunks.clear()`
is skipped because `handle_analysis_ready` raised. -/
theorem c5_counterexample :
    (processMessage respFence envAllFail false 6 stOneComplete .analysisReady).2
        = [PyError.maxRetries]
    ∧ (processMessage respFence envAllFail false 6 stOneComplete .analysisReady).1.file_chunks
        = fcOneComplete
    ∧ fcOneComplete ≠ [] := ⟨rfl, rfl, by decide⟩

/-- C5 (amended): the chunk map is cleared only when `handle_analysis_ready`
returns without raising (a completed run, or the initial-synthesis failure
path that sends the error and returns); when a repair-loop or transfer error
is raised — including retry-budget exhaustion — the error is surfaced but
the session chunk map is left untouched. -/
theorem c5_amended_clear_only_without_raise (response : String) (env : RepairEnv)
    (a0 : Bool) (fuel : Nat) (st : SessionState) :
    (∀ e, (handle_analysis_ready st.file_chunks response env a0 fuel).outcome = .raised e →
        processMessage response env a0 fuel st .analysisReady = (st, [e]))
    ∧ (∀ e, (handle_analysis_ready st.file_chunks response env a0 fuel).outcome = .errorSent e →
        processMessage response env a0 fuel st .analysisReady = (⟨[], st.prompt⟩, [e]))
    ∧ (∀ fin,
        (handle_analysis_ready st.file_chunks response env a0 fuel).outcome = .completed fin →
        processMessage response env a0 fuel st .analysisReady = (⟨[], st.prompt⟩, [])) := by
  refine ⟨fun e h => ?_, fun e h => ?_, fun fin h => ?_⟩ <;> simp [processMessage, h]

/-- C5 (witness): the amended theorem applied to the exhaustion scenario. -/
theorem c5_witness :
    processMessage respFence envAllFail false 6 stOneComplete .analysisReady
      = (stOneComplete, [PyError.maxRetries]) :=
  (c5_amended_clear_only_without_raise respFence envAllFail false 6 stOneComplete).1
    PyError.maxRetries rfl

/-! ## C6 — analysis_ready on an incomplete transfer -/

/-- Appending past files that reassemble cleanly does not change where
`finalize_files` fails. -/
theorem finalize_files_append_of_ok (fc1 : FileChunks) (l : List (String × String))
    (h : finalize_files fc1 = .ok l) (fc2 : FileChunks) :
    finalize_files (fc1 ++ fc2) = (finalize_files fc2).map (fun l2 => l ++ l2) := by
  induction fc1 generalizing l with
  | nil =>
    simp only [finalize_files, Except.ok.injEq] at h
    subst h
    cases h2 : finalize_files fc2 <;> simp [h2, Except.map]
  | cons p rest ih =>
    obtain ⟨name, info⟩ := p
    cases ht : info.total_chunks with
    | none => simp [finalize_files, ht] at h
    | some t =>
      rcases eq_or_ne info.received_chunks t with hr | hr
      · cases hj : joinChunks info.chunks with
        | error e => simp [finalize_files, ht, hr, hj] at h
        | ok content =>
          simp only [finalize_files, ht, hr, hj, ne_eq, not_true_eq_false, if_false] at h
          cases hrest : finalize_files rest with
          | error e => rw [hrest] at h; simp [Except.map] at h
          | ok l2 =>
            rw [hrest] at h
            simp only [Except.map, Except.ok.injEq] at h
            subst h
            rw [List.cons_append]
            simp only [finalize_files, ht, hr, hj, ne_eq, not_true_eq_false, if_false]
            rw [ih l2 hrest]
            cases h2 : finalize_files fc2 <;> simp [h2, Except.map]
      · simp [finalize_files, ht, hr] at h

/-- C6 (amended): when every file declared before it reassembles cleanly, a
file whose `received_chunks` differs from its `total_chunks` makes
`handle_analysis_ready` raise the incomplete-transfer error for that file,
with no synthesis call and no execution; when an earlier file is corrupted
(count-complete but with an unfilled slot) the handler still aborts before
synthesis, but with the join TypeError of the earlier file instead. -/
theorem c6_amended_incomplete_aborts (fc1 fc2 : FileChunks) (name : String)
    (info : FileInfo) (l : List (String × String)) (resp : String) (env : RepairEnv)
    (a0 : Bool) (fuel : Nat)
    (hpre : finalize_files fc1 = .ok l)
    (hinc : info.total_chunks ≠ some info.received_chunks) :
    handle_analysis_ready (fc1 ++ (name, info) :: fc2) resp env a0 fuel
      = ⟨.raised (.incompleteFile name), 0, 0, 0⟩ := by
  have hfin : finalize_files (fc1 ++ (name, info) :: fc2)
      = .error (.incompleteFile name) := by
    rw [finalize_files_append_of_ok fc1 l hpre]
    cases ht : info.total_chunks with
    | none => simp [finalize_files, ht, Except.map]
    | some t =>
      have hne : info.received_chunks ≠ t := fun hh => hinc (by rw [ht, hh])
      simp [finalize_files, ht, hne, Except.map]
  simp [handle_analysis_ready, hfin]

/-- C6 (witness): the amended theorem applied to a single incomplete file. -/
theorem c6_witness :
    handle_analysis_ready fcIncompleteOne respFence envAllFail false 6
      = ⟨.raised (.incompleteFile "b.csv"), 0, 0, 0⟩ :=
  c6_amended_incomplete_aborts [] [] "b.csv" ⟨[none, none], some 2, 1⟩ [] respFence
    envAllFail false 6 rfl (by decide)

/-- C6 (counterexample): with a corrupted earlier file, `analysis_ready` on a
state containing an incomplete file fails with the join `TypeError`, not
with an incomplete-transfer error for any file. -/
theorem c6_counterexample :
    handle_analysis_ready fcDupThenIncomplete respFence envAllFail false 6
        = ⟨.raised .typeErrorJoinNone, 0, 0, 0⟩
    ∧ PyError.typeErrorJoinNone ≠ .incompleteFile "a.csv"
    ∧ PyError.typeErrorJoinNone ≠ .incompleteFile "b.csv" := ⟨rfl, by decide, by decide⟩

/-! ## C7 — synthesis response without a fenced python block -/

/-- C7: when the synthesis response contains no fenced python block, the
handler reports the synthesis failure to the client and returns with zero
script executions and zero repair-synthesis calls. -/
theorem c7_no_fence_synthesis_failure (fc : FileChunks) (l : List (String × String))
    (resp : String) (env : RepairEnv) (a0 : Bool) (fuel : Nat)
    (hok : finalize_files fc = .ok l) (hnf : containsPythonFence resp = false) :
    handle_analysis_ready fc resp env a0 fuel = ⟨.errorSent .noCodeBlock, 1, 0, 0⟩ := by
  have hex : extract_code_from_response resp = .error .noCodeBlock := by
    unfold containsPythonFence at hnf
    unfold extract_code_from_response
    cases h1 : afterFirst pythonFenceOpen resp.data with
    | none => rfl
    | some rest =>
      rw [h1] at hnf
      cases h2 : upToFirst fenceClose rest with
      | none => simp [h2]
      | some code => simp [h2] at hnf
  simp [handle_analysis_ready, hok, hex]

/-- C7 (witness): a fence-free response on an empty (trivially complete)
transfer state. -/
theorem c7_witness :
    handle_analysis_ready [] "no code here" envAllFail false 6
      = ⟨.errorSent .noCodeBlock, 1, 0, 0⟩ :=
  c7_no_fence_synthesis_failure [] [] "no code here" envAllFail false 6 rfl (by decide)

/-! ## C8 — the structure sniffer never lets a parse failure escape -/

/-- C8: `analyze_file_structure` is a total function — whatever the file name
and however parsing goes it returns a `(summary, metadata)` pair (no
exception escapes the enclosing `try`). When the reader selected by the
extension raises, the result is the `"error"` classification whose
renderable text carries the failure message; an unrecognized extension
yields the `"unsupported"` classification without failing. -/
theorem c8_sniffer_total_and_degrades (name : String) (o : SnifferOracle) :
    ((fileExt name = "csv" ∨ fileExt name = "txt") → ∀ e, o.readCsv = .error e →
        analyze_file_structure name o
          = ("\nFile: " ++ name ++ "\nStructure could not be read: " ++ e ++ "\n", .error))
    ∧ (fileExt name = "xlsx" → ∀ e, o.readExcel = .error e →
        analyze_file_structure name o
          = ("\nFile: " ++ name ++ "\nStructure could not be read: " ++ e ++ "\n", .error))
    ∧ (fileExt name = "json" → ∀ e, o.loadJson = .error e →
        analyze_file_structure name o
          = ("\nFile: " ++ name ++ "\nStructure could not be read: " ++ e ++ "\n", .error))
    ∧ (¬ (fileExt name = "csv" ∨ fileExt name = "txt") → fileExt name ≠ "xlsx" →
        fileExt name ≠ "json" →
        analyze_file_structure name o
          = ("\nFile: " ++ name ++ "\nUnsupported file type: " ++ fileExt name ++ "\n",
             .unsupported)) := by
  refine ⟨?_, ?_, ?_, ?_⟩
  · intro h e he
    rcases h with h | h <;> simp [analyze_file_structure, h, he]
  · intro h e he
    have h1 : ¬ (fileExt name = "csv" ∨ fileExt name = "txt") := by rw [h]; decide
    simp [analyze_file_structure, h1, h, he]
  · intro h e he
    have h1 : ¬ (fileExt name = "csv" ∨ fileExt name = "txt") := by rw [h]; decide
    have h2 : fileExt name ≠ "xlsx" := by rw [h]; decide
    simp [analyze_file_structure, h1, h2, h, he]
  · intro h1 h2 h3
    simp [analyze_file_structure, h1, h2, h3]

/-- C8 (witness): a csv file whose parse raises degrades to the error
classification carrying the message. -/
theorem c8_witness :
    analyze_file_structure "data.csv" oracleCsvBoom
      = ("\nFile: data.csv\nStructure could not be read: boom\n", .error) :=
  (c8_sniffer_total_and_degrades "data.csv" oracleCsvBoom).1 (Or.inl (by decide)) "boom" rfl

/-! ## C9 — duplicate chunk indexes -/

/-- C9: `received_chunks` is incremented unconditionally, even when
`chunkIndex` duplicates an already-filled slot (first conjunct, for any
single-file state with `total_chunks` fixed and an in-range index).
Consequently (second/third conjuncts): after `total_chunks = 2` messages in
which index 0 arrives twice and index 1 never, the completeness check in
`analysis_ready` passes — evidenced by the failure being the join
`TypeError` on the unfilled slot, not the incomplete-transfer error — and
conversely (fourth/fifth conjuncts) a duplicate arriving after all slots are
filled drives `received_chunks` past `total_chunks`, so `analysis_ready`
rejects the fully-assembled file as incomplete. -/
theorem c9_duplicate_chunk_semantics :
    (∀ (name content : String) (chunks : List (Option String)) (t r tc : Nat)
        (i : Fin chunks.length),
        handle_file_chunk ⟨name, i.val, tc, content⟩ [(name, ⟨chunks, some t, r⟩)]
          = ([(name, ⟨chunks.set i.val (some content), some t, r + 1⟩)], none))
    ∧ (processChunkMsgs [⟨"f", 0, 2, "x"⟩, ⟨"f", 0, 2, "y"⟩]
          (handle_analysis_start ["f"] [])
        = ([("f", ⟨[some "y", none], some 2, 2⟩)], []))
    ∧ (finalize_files [("f", ⟨[some "y", none], some 2, 2⟩)]
        = .error .typeErrorJoinNone)
    ∧ (processChunkMsgs [⟨"f", 0, 2, "x"⟩, ⟨"f", 1, 2, "y"⟩, ⟨"f", 0, 2, "z"⟩]
          (handle_analysis_start ["f"] [])
        = ([("f", ⟨[some "z", some "y"], some 2, 3⟩)], []))
    ∧ (finalize_files [("f", ⟨[some "z", some "y"], some 2, 3⟩)]
        = .error (.incompleteFile "f")) := by
  refine ⟨?_, rfl, rfl, rfl, rfl⟩
  intro name content chunks t r tc i
  simp [handle_file_chunk, lookupFile, updateFile, i.isLt]

/-! ## C3 — reassembly is independent of arrival order -/

theorem chunkMsgsFor_cons (name : String) (N : Nat) (f : Nat → String) (i : Nat)
    (rest : List Nat) :
    chunkMsgsFor name N f (i :: rest) = ⟨name, i, N, f i⟩ :: chunkMsgsFor name N f rest := rfl

theorem slotsFor_length (N : Nat) (f : Nat → String) (done : List Nat) :
    (slotsFor N f done).length = N := by simp [slotsFor]

theorem slotsFor_nil (N : Nat) (f : Nat → String) :
    slotsFor N f [] = List.replicate N none := by
  simp [slotsFor, List.map_const']

theorem slotsFor_set (N : Nat) (f : Nat → String) (done : List Nat) (i : Nat) (_hi : i < N) :
    (slotsFor N f done).set i (some (f i)) = slotsFor N f (i :: done) := by
  apply List.ext_getElem
  · simp [slotsFor]
  · intro j h1 h2
    have hjN : j < N := by simpa [slotsFor] using h2
    rw [List.getElem_set]
    by_cases hij : i = j
    · subst hij
      simp [slotsFor]
    · simp only [hij, if_false, slotsFor, List.getElem_map, List.getElem_range,
        List.mem_cons]
      have : ¬ j = i := fun h => hij h.symm
      simp [this]

/-- One accepted chunk on a single-file state whose `total_chunks` is fixed. -/
theorem handle_chunk_step (name : String) (N : Nat) (f : Nat → String) (done : List Nat)
    (r : Nat) (i : Nat) (hi : i < N) :
    handle_file_chunk ⟨name, i, N, f i⟩ [(name, ⟨slotsFor N f done, some N, r⟩)]
      = ([(name, ⟨slotsFor N f (i :: done), some N, r + 1⟩)], none) := by
  have hlen : i < (slotsFor N f done).length := by simpa [slotsFor] using hi
  simp [handle_file_chunk, lookupFile, updateFile, hlen, slotsFor_set N f done i hi]

/-- The first chunk for a freshly declared file allocates the slots and
stores itself. -/
theorem handle_chunk_first (name : String) (N : Nat) (f : Nat → String) (i : Nat)
    (hi : i < N) :
    handle_file_chunk ⟨name, i, N, f i⟩ [(name, freshFile)]
      = ([(name, ⟨slotsFor N f [i], some N, 1⟩)], none) := by
  have hlen : i < (List.replicate N (none : Option String)).length := by simpa using hi
  have hset : (List.replicate N (none : Option String)).set i (some (f i))
      = slotsFor N f [i] := by
    rw [← slotsFor_nil N f, slotsFor_set N f [] i hi]
  simp [handle_file_chunk, freshFile, lookupFile, updateFile, hlen, hset, hi]

/-- Processing chunk messages with in-range indexes fills exactly those
slots and counts every message. -/
theorem processChunkMsgs_fill (name : String) (N : Nat) (f : Nat → String)
    (order : List Nat) :
    ∀ (done : List Nat) (r : Nat), (∀ i ∈ order, i < N) →
      processChunkMsgs (chunkMsgsFor name N f order)
          [(name, ⟨slotsFor N f done, some N, r⟩)]
        = ([(name, ⟨slotsFor N f (order.reverse ++ done), some N, r + order.length⟩)], []) := by
  induction order with
  | nil => intro done r _; simp [chunkMsgsFor, processChunkMsgs]
  | cons i rest ih =>
    intro done r h
    rw [chunkMsgsFor_cons]
    simp only [processChunkMsgs]
    rw [handle_chunk_step name N f done r i (h i (by simp))]
    rw [ih (i :: done) (r + 1) (fun j hj => h j (by simp [hj]))]
    have hlist : rest.reverse ++ i :: done = (i :: rest).reverse ++ done := by
      simp
    have hcount : r + 1 + rest.length = r + (i :: rest).length := by
      simp; omega
    rw [hlist, hcount]
    simp

/-- Evaluating `joinChunks` over fully filled slots gives the concatenation. -/
theorem joinChunks_map_some (l : List String) :
    joinChunks (l.map (fun s => some s)) = .ok (l.foldr (fun a b => a ++ b) "") := by
  induction l with
  | nil => rfl
  | cons a l ih => simp [joinChunks, ih, Except.map]

/-- C3: for every file split into `N ≥ 1` chunks and every arrival order (a
permutation of the chunk indexes), no chunk message raises an error and the
reassembly at `analysis_ready` produces exactly the in-order concatenation
of the chunks. -/
theorem c3_reassembly_order_independent (N : Nat) (f : Nat → String) (order : List Nat)
    (name : String) (hN : 0 < N) (hperm : order.Perm (List.range N)) :
    ((processChunkMsgs (chunkMsgsFor name N f order)
        (handle_analysis_start [name] [])).2 = [])
    ∧ finalize_files (processChunkMsgs (chunkMsgsFor name N f order)
        (handle_analysis_start [name] [])).1
      = .ok [(name, inOrderConcat N f)] := by
  have hmem : ∀ j ∈ order, j < N := fun j hj => List.mem_range.mp (hperm.mem_iff.mp hj)
  cases order with
  | nil =>
    exfalso
    have hlen := hperm.length_eq
    simp at hlen
    omega
  | cons i rest =>
    have hstart : handle_analysis_start [name] [] = [(name, freshFile)] := rfl
    rw [hstart, chunkMsgsFor_cons]
    simp only [processChunkMsgs]
    rw [handle_chunk_first name N f i (hmem i (by simp))]
    rw [processChunkMsgs_fill name N f rest [i] 1 (fun j hj => hmem j (by simp [hj]))]
    have hALL : slotsFor N f (rest.reverse ++ [i])
        = ((List.range N).map f).map (fun s => some s) := by
      unfold slotsFor
      rw [List.map_map]
      apply List.map_congr_left
      intro j hj
      have hjo : j ∈ i :: rest := hperm.mem_iff.mpr hj
      have hjd : j ∈ rest.reverse ++ [i] := by
        rcases List.mem_cons.mp hjo with h | h
        · simp [h]
        · simp [h]
      simp [hjd, Function.comp]
    have hlen : 1 + rest.length = N := by
      have := hperm.length_eq
      simp at this
      omega
    refine ⟨by simp, ?_⟩
    simp only []
    rw [hALL, hlen]
    simp only [finalize_files, ne_eq, not_true_eq_false, if_false]
    rw [joinChunks_map_some]
    simp [finalize_files, Except.map, inOrderConcat]

/-- C3 (witness): chunks "abc","def","ghi" arriving in order 2,0,1
reassemble to exactly "abcdefghi". -/
theorem c3_witness :
    ((processChunkMsgs (chunkMsgsFor "data.csv" 3 chunkContent3 [2, 0, 1])
        (handle_analysis_start ["data.csv"] [])).2 = [])
    ∧ finalize_files (processChunkMsgs (chunkMsgsFor "data.csv" 3 chunkContent3 [2, 0, 1])
        (handle_analysis_start ["data.csv"] [])).1
      = .ok [("data.csv", "abcdefghi")] :=
  c3_reassembly_order_independent 3 chunkContent3 [2, 0, 1] "data.csv" (by decide) (by decide)
